import Mathlib

/-!
Shallow embedding of the zenlit client's radar/messaging core.

Sources embedded here:
* location helpers (rounding, bucket comparison, nearby-user query,
  location removal) from the location library file;
* messaging library (`getOrCreateConversation`, `getConversationMessages`,
  `sendMessage`, `markMessagesAsRead`);
* the SQL function `get_or_create_conversation` from the migrations;
* the `handleSendMessage` handler of `MessagesScreen`.

Machine floats are modelled as rationals; `Number(x.toFixed(2))` is the
ECMA `toFixed` rounding (nearest, ties to the larger value) at 2 decimals.
Backend tables are modelled as in-memory lists; each fallible operation
returns a `success`/`error`-style result, and state-changing operations
take and return the store explicitly.
-/

unseal Rat.add Rat.mul Rat.inv Rat.sub Rat.ofScientific

namespace Zenlit

/-- Result type modelling the uniform `{success, data?, error?}` objects the
client returns instead of throwing. -/
inductive SbResult (α : Type) where
  | ok (val : α)
  | err (msg : String)
deriving DecidableEq

/-! ## Location bucketing -/

/-- Model of the `UserLocation` value produced by `requestUserLocation`. -/
structure UserLocation where
  latitude : ℚ
  longitude : ℚ
  accuracy : ℚ
  timestamp : ℕ
deriving DecidableEq

/-- Model of `Number(x.toFixed(2))`: round to the nearest multiple of 1/100,
ties going to the larger value (ECMA `toFixed` picks the larger candidate).
`Rat.floor` is used so the function evaluates by kernel reduction. -/
def toFixed2 (q : ℚ) : ℚ := ((q * 100 + 1/2).floor : ℚ) / 100

/-- Per-axis rounding of a location, as done in `requestUserLocation` and
`saveUserLocation` before any storage or comparison. -/
def roundLocation (c : UserLocation) : UserLocation :=
  { c with latitude := toFixed2 c.latitude, longitude := toFixed2 c.longitude }

/-- The rounded coordinate pair of a location (the "bucket"). -/
def roundCoords (c : UserLocation) : ℚ × ℚ :=
  (toFixed2 c.latitude, toFixed2 c.longitude)

/-- Embedding of `hasLocationChanged`: compare the per-axis roundings. -/
def hasLocationChanged (oldLocation newLocation : UserLocation) : Bool :=
  decide (toFixed2 oldLocation.latitude ≠ toFixed2 newLocation.latitude) ||
    decide (toFixed2 oldLocation.longitude ≠ toFixed2 newLocation.longitude)

/-- A row of the backend `profiles` table, restricted to the columns the
radar queries touch. `latitude`/`longitude` are nullable. -/
structure Profile where
  id : String
  name : Option String
  latitude : Option ℚ
  longitude : Option ℚ
  hide_from_radar : Bool
deriving DecidableEq

/-- An entry of the `getNearbyUsers` result: the profile with `distance: 0`
and `hasRealLocation: true` attached. -/
structure NearbyUser where
  profile : Profile
  distance : ℚ
  hasRealLocation : Bool
deriving DecidableEq

/-- Embedding of `getNearbyUsers`: round the querying user's coordinates,
then the query `neq(id) ∧ name not null ∧ eq(latitude) ∧ eq(longitude) ∧
eq(hide_from_radar, false)` with `limit`, mapping each row to a user with
`distance := 0`. SQL `eq` against a NULL column does not match, hence the
`some` comparisons. -/
def getNearbyUsers (currentUserId : String) (currentLocation : UserLocation)
    (limit : ℕ) (profiles : List Profile) : List NearbyUser :=
  let latRounded := toFixed2 currentLocation.latitude
  let lonRounded := toFixed2 currentLocation.longitude
  ((profiles.filter (fun p =>
      decide (p.id ≠ currentUserId ∧ p.name ≠ none ∧
        p.latitude = some latRounded ∧ p.longitude = some lonRounded ∧
        p.hide_from_radar = false))).take limit).map
    (fun p => { profile := p, distance := 0, hasRealLocation := true })

/-- Embedding of `removeUserLocation`: null out the user's stored
coordinates. -/
def removeUserLocation (userId : String) (profiles : List Profile) :
    List Profile :=
  profiles.map (fun p =>
    if p.id = userId then { p with latitude := none, longitude := none } else p)

example : toFixed2 0 = 0 := by decide
example : toFixed2 (1297155/100000) = 1297/100 := by decide
example : hasLocationChanged ⟨1297155/100000, 0, 0, 0⟩ ⟨1297/100, 0, 0, 0⟩ = false := by decide

/-! ## Messaging -/

/-- A row of the backend `messages` table. `created_at` is a timestamp
modelled as a natural number. -/
structure Msg where
  id : String
  conversation_id : String
  sender_id : String
  content : String
  created_at : ℕ
  read : Bool
deriving DecidableEq

/-- The `MessageWithSender` shape the messaging library hands to the UI
(the `receiverId` field is always set to the empty string; the joined
sender profile is display-only and omitted). -/
structure MessageWithSender where
  id : String
  senderId : String
  receiverId : String
  content : String
  timestamp : ℕ
  read : Bool
deriving DecidableEq

/-- The row-to-UI transformation applied by the messaging library. -/
def formatMessage (m : Msg) : MessageWithSender :=
  { id := m.id, senderId := m.sender_id, receiverId := ""
    content := m.content, timestamp := m.created_at, read := m.read }

/-- Model of the JavaScript `String.prototype.trim`: strip leading and
trailing whitespace. Written over the character list so it evaluates by
kernel reduction. -/
def jsTrim (s : String) : String :=
  ⟨((s.data.dropWhile Char.isWhitespace).reverse.dropWhile Char.isWhitespace).reverse⟩

/-- The ordering used by `order('created_at', { ascending: true })`. -/
def createdLe (a b : Msg) : Prop := a.created_at ≤ b.created_at

instance : DecidableRel createdLe :=
  fun a b => inferInstanceAs (Decidable (a.created_at ≤ b.created_at))

instance : IsTotal Msg createdLe := ⟨fun a b => Nat.le_total a.created_at b.created_at⟩

instance : IsTrans Msg createdLe := ⟨fun _ _ _ => Nat.le_trans⟩

/-- The database query of `getConversationMessages`: rows of the
conversation, sorted by `created_at` ascending, truncated to `limit`. -/
def queryMessagesAsc (conversationId : String) (limit : ℕ) (store : List Msg) :
    List Msg :=
  ((store.filter (fun m => decide (m.conversation_id = conversationId))).insertionSort
    createdLe).take limit

/-- Embedding of `getConversationMessages`: an empty conversation id is
rejected; otherwise the query result is formatted for the UI. -/
def getConversationMessages (conversationId : String) (limit : ℕ)
    (store : List Msg) : SbResult (List MessageWithSender) :=
  if conversationId = "" then .err "Conversation ID is required"
  else .ok ((queryMessagesAsc conversationId limit store).map formatMessage)

/-- Modelled from the spec: the page `listMessages` is specified to return,
namely "ascending chronological page, most recent `limit` messages" — the
LAST `limit` entries of the ascending order. Defined only to compare with
the code-derived `getConversationMessages`. -/
def listMessagesSpecMostRecent (conversationId : String) (limit : ℕ)
    (store : List Msg) : List Msg :=
  let sorted := (store.filter
    (fun m => decide (m.conversation_id = conversationId))).insertionSort createdLe
  sorted.drop (sorted.length - limit)

/-- The backend `messages` table together with a counter of insert calls
made against it, so "no network call happened" is expressible. -/
structure MsgDb where
  msgs : List Msg
  inserts : ℕ
deriving DecidableEq

/-- Embedding of `sendMessage`: an empty conversation id, empty sender id
or contentless (after `trim`) body is rejected before any backend call;
otherwise the trimmed content is inserted (`now` and `newId` model the
backend-assigned `created_at` and row id). -/
def sendMessage (conversationId senderId content : String) (now : ℕ)
    (newId : String) (db : MsgDb) : MsgDb × SbResult MessageWithSender :=
  if conversationId = "" ∨ senderId = "" ∨ jsTrim content = "" then
    (db, .err "Missing required parameters")
  else
    let inserted : Msg :=
      { id := newId, conversation_id := conversationId, sender_id := senderId
        content := jsTrim content, created_at := now, read := false }
    ({ msgs := db.msgs ++ [inserted], inserts := db.inserts + 1 },
      .ok (formatMessage inserted))

/-- Embedding of `markMessagesAsRead`: set `read := true` on rows of the
conversation that were not sent by `userId` and are still unread. -/
def markMessagesAsRead (conversationId userId : String) (store : List Msg) :
    List Msg :=
  store.map (fun m =>
    if m.conversation_id = conversationId ∧ m.sender_id ≠ userId ∧ m.read = false
    then { m with read := true } else m)

/-- Embedding of `MessagesScreen.handleSendMessage`: bail out without a
conversation or current user; otherwise call `sendMessage`. The rendered
`messages` state is NOT touched — the code comment reads "Message will be
added via subscription". -/
def handleSendMessage (selectedConversation : Option String)
    (currentUserId : String) (content : String) (now : ℕ) (newId : String)
    (messages : List MessageWithSender) (db : MsgDb) :
    List MessageWithSender × MsgDb :=
  match selectedConversation with
  | none => (messages, db)
  | some conversationId =>
    if currentUserId = "" then (messages, db)
    else
      let db1 := (sendMessage conversationId currentUserId content now newId db).1
      (messages, db1)

/-- The subscription callback of `MessagesScreen`: an arriving authoritative
message is appended to the rendered list. -/
def onNewMessage (messages : List MessageWithSender) (m : MessageWithSender) :
    List MessageWithSender :=
  messages ++ [m]

/-! ## Conversations -/

/-- A row of the backend `conversations` table (timestamp columns are
backend-owned and irrelevant to the claims). Row ids are modelled as the
naturals handed out by the store. -/
structure ConvRow where
  id : ℕ
  participant_1_id : String
  participant_2_id : String
deriving DecidableEq

/-- The backend `conversations` table: rows, the next fresh row id, and a
counter of RPC calls received. -/
structure ConvStore where
  rows : List ConvRow
  nextId : ℕ
  rpcCalls : ℕ
deriving DecidableEq

/-- Embedding of the SQL function `get_or_create_conversation`: order the
two participants consistently, look the pair up, insert a fresh row if
absent, and return the conversation id. -/
def get_or_create_conversation (user1_id user2_id : String) (s : ConvStore) :
    ℕ × ConvStore :=
  let participant_1 := if user1_id < user2_id then user1_id else user2_id
  let participant_2 := if user1_id < user2_id then user2_id else user1_id
  let s1 : ConvStore := { s with rpcCalls := s.rpcCalls + 1 }
  match s1.rows.find? (fun r =>
      decide (r.participant_1_id = participant_1 ∧ r.participant_2_id = participant_2)) with
  | some r => (r.id, s1)
  | none =>
    (s1.nextId,
      { rows := s1.rows ++ [⟨s1.nextId, participant_1, participant_2⟩]
        nextId := s1.nextId + 1, rpcCalls := s1.rpcCalls })

/-- Embedding of the client-side `getOrCreateConversation` wrapper: empty
user ids are rejected before the RPC; otherwise the RPC runs and the
resulting row is fetched. -/
def getOrCreateConversation (currentUserId otherUserId : String)
    (s : ConvStore) : SbResult ConvRow × ConvStore :=
  if currentUserId = "" ∨ otherUserId = "" then
    (.err "Invalid user IDs provided", s)
  else
    let (conversationId, s1) := get_or_create_conversation currentUserId otherUserId s
    match s1.rows.find? (fun r => decide (r.id = conversationId)) with
    | some row => (.ok row, s1)
    | none => (.err "Failed to fetch conversation details", s1)

example :
    getConversationMessages "c" 1
      [⟨"m1", "c", "alice", "first", 0, false⟩, ⟨"m2", "c", "bob", "second", 1, false⟩] =
      .ok [formatMessage ⟨"m1", "c", "alice", "first", 0, false⟩] := by decide

example :
    (get_or_create_conversation "alice" "bob" ⟨[], 0, 0⟩).1 =
      (get_or_create_conversation "bob" "alice" ⟨[], 0, 0⟩).1 := by decide

example : (sendMessage "c" "u" "   " 0 "m" ⟨[], 0⟩).1 = ⟨[], 0⟩ := by decide

example : (sendMessage "c" "u" " hi " 0 "m" ⟨[], 0⟩).1.msgs =
    [⟨"m", "c", "u", "hi", 0, false⟩] := by decide

/-! ## Helper lemmas -/

/-- The computable `Rat.floor` agrees with the `⌊⌋` of the `FloorRing`
instance, so `toFixed2` can be reasoned about with the floor API. -/
theorem toFixed2_eq_floor (q : ℚ) : toFixed2 q = (⌊q * 100 + 1/2⌋ : ℚ) / 100 := by
  rw [toFixed2, Rat.floor_def', Rat.floor_def]

/-- Rounding to two decimals is idempotent on a single axis: the output is
an integer multiple of 1/100, and such values round to themselves. -/
theorem toFixed2_idem (q : ℚ) : toFixed2 (toFixed2 q) = toFixed2 q := by
  rw [toFixed2_eq_floor q]
  rw [toFixed2_eq_floor]
  have h1 : ((⌊q * 100 + 1/2⌋ : ℚ)) / 100 * 100 = ((⌊q * 100 + 1/2⌋ : ℚ)) :=
    div_mul_cancel₀ _ (by norm_num)
  rw [h1, add_comm, Int.floor_add_int]
  have h2 : ⌊(1/2 : ℚ)⌋ = 0 := by
    rw [Int.floor_eq_zero_iff]
    constructor <;> norm_num
  rw [h2, zero_add]

/-- A pair drawn from zipping a list with its image under `f` relates by
`f`. -/
theorem snd_eq_of_mem_zip_map {α β : Type} (f : α → β) :
    ∀ (l : List α) (p : α × β), p ∈ l.zip (l.map f) → p.2 = f p.1 := by
  intro l
  induction l with
  | nil => intro p hp; simp at hp
  | cons a t ih =>
    intro p hp
    rw [List.map_cons, List.zip_cons_cons, List.mem_cons] at hp
    rcases hp with hp | hp
    · subst hp; rfl
    · exact ih p hp

/-- After `removeUserLocation u`, every row carrying the id `u` has a null
latitude. -/
theorem removeUserLocation_lat_none (u : String) (profiles : List Profile) :
    ∀ p ∈ removeUserLocation u profiles, p.id = u → p.latitude = none := by
  intro p hp hid
  simp only [removeUserLocation, List.mem_map] at hp
  obtain ⟨q, _, rfl⟩ := hp
  by_cases h : q.id = u
  · simp [h]
  · rw [if_neg h] at hid ⊢
    exact absurd hid h

/-! ## Claim theorems -/

/-- C7: `hasLocationChanged(c1, c2)` returns `true` exactly when the
2-decimal roundings of the two coordinate pairs differ. -/
theorem hasLocationChanged_iff_bucket_ne (c1 c2 : UserLocation) :
    hasLocationChanged c1 c2 = true ↔ roundCoords c1 ≠ roundCoords c2 := by
  simp only [hasLocationChanged, roundCoords, Bool.or_eq_true, decide_eq_true_eq,
    ne_eq, Prod.mk.injEq, not_and_or]

/-- C8: rounding each axis to two decimals is idempotent on locations:
rounding an already-rounded location changes nothing. -/
theorem roundLocation_idempotent (c : UserLocation) :
    roundLocation (roundLocation c) = roundLocation c := by
  simp [roundLocation, toFixed2_idem]

/-- C2 (counterexample): sending "hi" in conversation "c1" as user "u1"
leaves the rendered message list without any entry whose content is "hi" —
no optimistic message appears after `handleSendMessage`. -/
theorem handleSendMessage_no_optimistic_entry :
    ¬ ∃ m ∈ (handleSendMessage (some "c1") "u1" "hi" 0 "m1" [] ⟨[], 0⟩).1,
        m.content = "hi" := by decide

/-- C2 (amended): `handleSendMessage` never changes the rendered message
list — no optimistic entry is appended (and hence none is ever removed);
messages reach the list only through the subscription callback. -/
theorem handleSendMessage_leaves_rendered_list (selectedConversation : Option String)
    (currentUserId content : String) (now : ℕ) (newId : String)
    (messages : List MessageWithSender) (db : MsgDb) :
    (handleSendMessage selectedConversation currentUserId content now newId
      messages db).1 = messages := by
  cases selectedConversation with
  | none => rfl
  | some conversationId =>
    by_cases h : currentUserId = "" <;> simp [handleSendMessage, h]

/-- C3: `get_or_create_conversation` canonicalizes the participant order,
so for distinct users the two argument orders return the same conversation
id and leave the store in the same state. -/
theorem get_or_create_conversation_comm (user1_id user2_id : String)
    (s : ConvStore) (h : user1_id ≠ user2_id) :
    get_or_create_conversation user1_id user2_id s =
      get_or_create_conversation user2_id user1_id s := by
  unfold get_or_create_conversation
  rcases lt_trichotomy user1_id user2_id with hlt | heq | hgt
  · simp only [if_pos hlt, if_neg (lt_asymm hlt)]
  · exact absurd heq h
  · simp only [if_pos hgt, if_neg (lt_asymm hgt)]

/-- C3 witness: concrete distinct users, both argument orders. -/
theorem get_or_create_conversation_comm_witness :
    ("alice" : String) ≠ "bob" ∧
      get_or_create_conversation "alice" "bob" ⟨[], 0, 0⟩ =
        get_or_create_conversation "bob" "alice" ⟨[], 0, 0⟩ :=
  ⟨by decide, get_or_create_conversation_comm "alice" "bob" ⟨[], 0, 0⟩ (by decide)⟩

/-- C10: an empty user id on either side makes `getOrCreateConversation`
return the failure result `Invalid user IDs provided` with the backend
store untouched (in particular no RPC call is made). -/
theorem getOrCreateConversation_rejects_empty_ids (currentUserId otherUserId : String)
    (s : ConvStore) (h : currentUserId = "" ∨ otherUserId = "") :
    getOrCreateConversation currentUserId otherUserId s =
      (.err "Invalid user IDs provided", s) := by
  rw [getOrCreateConversation, if_pos h]

/-- C10 witness: an empty first argument at a concrete store. -/
theorem getOrCreateConversation_rejects_empty_ids_witness :
    (("" : String) = "" ∨ ("bob" : String) = "") ∧
      getOrCreateConversation "" "bob" ⟨[], 0, 0⟩ =
        (.err "Invalid user IDs provided", ⟨[], 0, 0⟩) :=
  ⟨Or.inl rfl, getOrCreateConversation_rejects_empty_ids "" "bob" ⟨[], 0, 0⟩ (Or.inl rfl)⟩

/-- C6: `sendMessage` rejects content that trims to nothing with a failure
result and an untouched store (so no network call), and any accepted send
inserts exactly the trimmed content. -/
theorem sendMessage_rejects_blank_and_trims (conversationId senderId content : String)
    (now : ℕ) (newId : String) (db : MsgDb) :
    (jsTrim content = "" →
      sendMessage conversationId senderId content now newId db =
        (db, .err "Missing required parameters")) ∧
    (∀ db1 m, sendMessage conversationId senderId content now newId db = (db1, .ok m) →
      m.content = jsTrim content ∧
      db1.msgs = db.msgs ++
        [{ id := newId, conversation_id := conversationId, sender_id := senderId
           content := jsTrim content, created_at := now, read := false }]) := by
  constructor
  · intro h
    rw [sendMessage, if_pos (Or.inr (Or.inr h))]
  · intro db1 m hmk
    by_cases hc : conversationId = "" ∨ senderId = "" ∨ jsTrim content = ""
    · rw [sendMessage, if_pos hc] at hmk
      exact absurd hmk (by simp)
    · rw [sendMessage, if_neg hc] at hmk
      simp only [Prod.mk.injEq, SbResult.ok.injEq] at hmk
      obtain ⟨hdb, hm⟩ := hmk
      subst hdb
      subst hm
      exact ⟨rfl, rfl⟩

/-- C6 witness: a whitespace-only send is rejected with the store
untouched, and a concrete padded send inserts the trimmed content. -/
theorem sendMessage_rejects_blank_and_trims_witness :
    (sendMessage "c" "u" "  " 0 "m" ⟨[], 0⟩ =
      (⟨[], 0⟩, .err "Missing required parameters")) ∧
    ((formatMessage ⟨"m", "c", "u", "hi", 0, false⟩).content = jsTrim " hi " ∧
      ({ msgs := [⟨"m", "c", "u", "hi", 0, false⟩], inserts := 1 } : MsgDb).msgs =
        ([] : List Msg) ++
          [{ id := "m", conversation_id := "c", sender_id := "u"
             content := jsTrim " hi ", created_at := 0, read := false }]) :=
  ⟨(sendMessage_rejects_blank_and_trims "c" "u" "  " 0 "m" ⟨[], 0⟩).1 (by decide),
    (sendMessage_rejects_blank_and_trims "c" "u" " hi " 0 "m" ⟨[], 0⟩).2
      { msgs := [⟨"m", "c", "u", "hi", 0, false⟩], inserts := 1 }
      (formatMessage ⟨"m", "c", "u", "hi", 0, false⟩) (by decide)⟩

/-- C9: `markMessagesAsRead` leaves the `read` flag of every message
authored by the reader unchanged (rows are compared position by position
with the untouched store). -/
theorem markMessagesAsRead_preserves_reader_messages (conversationId userId : String)
    (store : List Msg) (p : Msg × Msg)
    (hp : p ∈ store.zip (markMessagesAsRead conversationId userId store))
    (hsender : p.1.sender_id = userId) :
    p.2.read = p.1.read := by
  rw [markMessagesAsRead] at hp
  have h2 := snd_eq_of_mem_zip_map _ store p hp
  simp only [h2]
  rw [if_neg (by rintro ⟨-, hne, -⟩; exact hne hsender)]

/-- C9 witness: a conversation whose only message is the reader's own is
left untouched by `markMessagesAsRead`. -/
theorem markMessagesAsRead_preserves_reader_messages_witness :
    ((⟨"m1", "c", "reader", "hello", 3, false⟩, ⟨"m1", "c", "reader", "hello", 3, false⟩) :
          Msg × Msg) ∈
        [(⟨"m1", "c", "reader", "hello", 3, false⟩ : Msg)].zip
          (markMessagesAsRead "c" "reader" [⟨"m1", "c", "reader", "hello", 3, false⟩]) ∧
      ((⟨"m1", "c", "reader", "hello", 3, false⟩, ⟨"m1", "c", "reader", "hello", 3, false⟩) :
          Msg × Msg).1.sender_id = "reader" ∧
      ((⟨"m1", "c", "reader", "hello", 3, false⟩, ⟨"m1", "c", "reader", "hello", 3, false⟩) :
          Msg × Msg).2.read =
        ((⟨"m1", "c", "reader", "hello", 3, false⟩, ⟨"m1", "c", "reader", "hello", 3, false⟩) :
          Msg × Msg).1.read :=
  ⟨by decide, rfl,
    markMessagesAsRead_preserves_reader_messages "c" "reader"
      [⟨"m1", "c", "reader", "hello", 3, false⟩]
      (⟨"m1", "c", "reader", "hello", 3, false⟩, ⟨"m1", "c", "reader", "hello", 3, false⟩)
      (by decide) rfl⟩

/-- C4: every user returned by `getNearbyUsers` is distinct from the
querying user, is not hidden from the radar, and sits in the querying
user's rounded coordinate bucket. -/
theorem getNearbyUsers_excludes_self_and_hidden (currentUserId : String)
    (loc : UserLocation) (limit : ℕ) (profiles : List Profile) (u : NearbyUser)
    (hu : u ∈ getNearbyUsers currentUserId loc limit profiles) :
    u.profile.id ≠ currentUserId ∧ u.profile.hide_from_radar = false ∧
      u.profile.latitude.map toFixed2 = some (toFixed2 loc.latitude) ∧
      u.profile.longitude.map toFixed2 = some (toFixed2 loc.longitude) := by
  simp only [getNearbyUsers, List.mem_map] at hu
  obtain ⟨p, hp, rfl⟩ := hu
  have hp2 := List.mem_of_mem_take hp
  rw [List.mem_filter, decide_eq_true_eq] at hp2
  obtain ⟨-, h1, -, h3, h4, h5⟩ := hp2
  refine ⟨h1, h5, ?_, ?_⟩
  · rw [h3]
    simp [toFixed2_idem]
  · rw [h4]
    simp [toFixed2_idem]

/-- C4 witness: a same-bucket visible profile is returned and satisfies
the exclusion/bucket properties. -/
theorem getNearbyUsers_excludes_self_and_hidden_witness :
    ((⟨⟨"w", some "Wendy", some 0, some 0, false⟩, 0, true⟩ : NearbyUser) ∈
        getNearbyUsers "q" ⟨0, 0, 0, 0⟩ 20 [⟨"w", some "Wendy", some 0, some 0, false⟩]) ∧
      ((⟨⟨"w", some "Wendy", some 0, some 0, false⟩, 0, true⟩ : NearbyUser).profile.id ≠ "q" ∧
        (⟨⟨"w", some "Wendy", some 0, some 0, false⟩, 0, true⟩ :
            NearbyUser).profile.hide_from_radar = false ∧
        (⟨⟨"w", some "Wendy", some 0, some 0, false⟩, 0, true⟩ :
            NearbyUser).profile.latitude.map toFixed2 =
          some (toFixed2 (⟨0, 0, 0, 0⟩ : UserLocation).latitude) ∧
        (⟨⟨"w", some "Wendy", some 0, some 0, false⟩, 0, true⟩ :
            NearbyUser).profile.longitude.map toFixed2 =
          some (toFixed2 (⟨0, 0, 0, 0⟩ : UserLocation).longitude)) :=
  ⟨by decide,
    getNearbyUsers_excludes_self_and_hidden "q" ⟨0, 0, 0, 0⟩ 20
      [⟨"w", some "Wendy", some 0, some 0, false⟩]
      ⟨⟨"w", some "Wendy", some 0, some 0, false⟩, 0, true⟩ (by decide)⟩

/-- C5: once `removeUserLocation u` has nulled the user's coordinates, no
subsequent `getNearbyUsers` query returns an entry with id `u`. -/
theorem getNearbyUsers_after_remove_excludes (u currentUserId : String)
    (loc : UserLocation) (limit : ℕ) (profiles : List Profile) (r : NearbyUser)
    (hr : r ∈ getNearbyUsers currentUserId loc limit (removeUserLocation u profiles)) :
    r.profile.id ≠ u := by
  intro hid
  simp only [getNearbyUsers, List.mem_map] at hr
  obtain ⟨p, hp, rfl⟩ := hr
  have hp2 := List.mem_of_mem_take hp
  rw [List.mem_filter, decide_eq_true_eq] at hp2
  obtain ⟨hmem, -, -, h3, -, -⟩ := hp2
  have hnone := removeUserLocation_lat_none u profiles p hmem hid
  rw [h3] at hnone
  exact Option.noConfusion hnone

/-- C5 witness: after "v" disables sharing, bucket-mate "q" still sees "w"
but the returned entry is not "v". -/
theorem getNearbyUsers_after_remove_excludes_witness :
    ((⟨⟨"w", some "Wendy", some 0, some 0, false⟩, 0, true⟩ : NearbyUser) ∈
        getNearbyUsers "q" ⟨0, 0, 0, 0⟩ 20
          (removeUserLocation "v"
            [⟨"v", some "Vic", some 0, some 0, false⟩,
              ⟨"w", some "Wendy", some 0, some 0, false⟩])) ∧
      (⟨⟨"w", some "Wendy", some 0, some 0, false⟩, 0, true⟩ :
          NearbyUser).profile.id ≠ "v" :=
  ⟨by decide,
    getNearbyUsers_after_remove_excludes "v" "q" ⟨0, 0, 0, 0⟩ 20
      [⟨"v", some "Vic", some 0, some 0, false⟩,
        ⟨"w", some "Wendy", some 0, some 0, false⟩]
      ⟨⟨"w", some "Wendy", some 0, some 0, false⟩, 0, true⟩ (by decide)⟩

/-- C1 (counterexample): with two messages in conversation "c" and limit 1,
`getConversationMessages` returns the OLDEST message, not the most recent
one the spec promises (`listMessagesSpecMostRecent` is the spec's page). -/
theorem getConversationMessages_not_most_recent :
    getConversationMessages "c" 1
        [⟨"m1", "c", "alice", "first", 0, false⟩, ⟨"m2", "c", "bob", "second", 1, false⟩] ≠
      .ok ((listMessagesSpecMostRecent "c" 1
        [⟨"m1", "c", "alice", "first", 0, false⟩,
          ⟨"m2", "c", "bob", "second", 1, false⟩]).map formatMessage) := by decide

/-- C1 (amended): `getConversationMessages` returns an ascending
chronological page consisting of the OLDEST `limit` messages of the
conversation: the result is sorted by timestamp, has length
`min limit (count of the conversation's messages)`, and together with some
remainder `rest` of never-newer messages makes up the whole conversation. -/
theorem getConversationMessages_oldest_ascending_page
    (conversationId : String) (limit : ℕ) (store : List Msg)
    (msgs : List MessageWithSender)
    (h : getConversationMessages conversationId limit store = .ok msgs) :
    List.Sorted (fun a b => a.timestamp ≤ b.timestamp) msgs ∧
      msgs.length =
        min limit
          ((store.filter (fun m => decide (m.conversation_id = conversationId))).length) ∧
      ∃ rest : List MessageWithSender,
        List.Perm (msgs ++ rest)
          ((store.filter (fun m => decide (m.conversation_id = conversationId))).map
            formatMessage) ∧
        ∀ a ∈ msgs, ∀ b ∈ rest, a.timestamp ≤ b.timestamp := by
  rw [getConversationMessages] at h
  by_cases hcid : conversationId = ""
  · rw [if_pos hcid] at h
    exact absurd h (by simp)
  · rw [if_neg hcid, SbResult.ok.injEq] at h
    subst h
    set flt := store.filter (fun m => decide (m.conversation_id = conversationId)) with hflt
    set srt := flt.insertionSort createdLe with hsrt
    have hsorted : List.Sorted createdLe srt := List.sorted_insertionSort createdLe flt
    have hperm : List.Perm srt flt := List.perm_insertionSort createdLe flt
    have hq : queryMessagesAsc conversationId limit store = srt.take limit := rfl
    have htake : List.Pairwise createdLe (srt.take limit) :=
      List.Pairwise.sublist (List.take_sublist _ _) hsorted
    refine ⟨?_, ?_, ?_⟩
    · rw [hq]
      exact List.Pairwise.map formatMessage (fun a b hab => hab) htake
    · rw [hq, List.length_map, List.length_take, hperm.length_eq]
    · refine ⟨(srt.drop limit).map formatMessage, ?_, ?_⟩
      · rw [hq, ← List.map_append, List.take_append_drop]
        exact hperm.map formatMessage
      · intro a ha b hb
        rw [hq, List.mem_map] at ha
        rw [List.mem_map] at hb
        obtain ⟨a0, ha0, rfl⟩ := ha
        obtain ⟨b0, hb0, rfl⟩ := hb
        have hsplit : List.Pairwise createdLe (srt.take limit ++ srt.drop limit) := by
          rw [List.take_append_drop]
          exact hsorted
        exact (List.pairwise_append.mp hsplit).2.2 a0 ha0 b0 hb0

/-- C1 witness: the two-message conversation, limit 1. -/
theorem getConversationMessages_oldest_ascending_page_witness :
    List.Sorted (fun a b => a.timestamp ≤ b.timestamp)
        [(⟨"m1", "alice", "", "first", 0, false⟩ : MessageWithSender)] ∧
      ([(⟨"m1", "alice", "", "first", 0, false⟩ : MessageWithSender)]).length =
        min 1
          ((([⟨"m1", "c", "alice", "first", 0, false⟩,
              ⟨"m2", "c", "bob", "second", 1, false⟩] : List Msg).filter
            (fun m => decide (m.conversation_id = "c"))).length) ∧
      ∃ rest : List MessageWithSender,
        List.Perm
          ([(⟨"m1", "alice", "", "first", 0, false⟩ : MessageWithSender)] ++ rest)
          ((([⟨"m1", "c", "alice", "first", 0, false⟩,
              ⟨"m2", "c", "bob", "second", 1, false⟩] : List Msg).filter
            (fun m => decide (m.conversation_id = "c"))).map formatMessage) ∧
        ∀ a ∈ [(⟨"m1", "alice", "", "first", 0, false⟩ : MessageWithSender)],
          ∀ b ∈ rest, a.timestamp ≤ b.timestamp :=
  getConversationMessages_oldest_ascending_page "c" 1
    [⟨"m1", "c", "alice", "first", 0, false⟩, ⟨"m2", "c", "bob", "second", 1, false⟩]
    [⟨"m1", "alice", "", "first", 0, false⟩] (by decide)

end Zenlit
